import Mathlib

/-!
# dropwatch: netlink message lifecycle and control state machine

A shallow embedding of `src/main.c`.  The C program keeps its data in heap
objects linked by pointers and in a handful of process-wide variables; here
the heap is a list of slots addressed by natural numbers (`0` is `NULL`),
the process-wide variables are the fields of `World`, and every C function
becomes a function from a `World` to an outcome `Res` carrying the world it
ended in.  What the environment supplies (operator lines, frames delivered
by the socket, return codes of `nl_send`, results of `malloc`) is read from
queues inside the `World`; what the program does to the environment is
appended to `World.trace`.
-/

namespace Dropwatch

/-! ## Constants -/

/-- An address of a `struct netlink_message`; `0` is the null pointer. -/
abbrev Addr := Nat

/-- The null pointer. -/
abbrev NULL : Addr := 0

/-- The value of `NLMSG_ERROR` in `linux/netlink.h`. -/
abbrev NLMSG_ERROR : Nat := 2

/-- The value of `NLM_F_REQUEST` in `linux/netlink.h`. -/
abbrev NLM_F_REQUEST : Nat := 1

/-- The value of `NLM_F_ACK` in `linux/netlink.h`. -/
abbrev NLM_F_ACK : Nat := 4

/-- The value of `EINTR` in `errno.h`. -/
abbrev EINTR : Nat := 4

/-- Modelled from the spec: `net_dropmon.h` is not among the sources, so the
command codes are taken from the order of the `type_cb` table and of the
handlers: code 0 is the unspecified command. -/
abbrev NET_DM_CMD_UNSPEC : Nat := 0

/-- Modelled from the spec: `net_dropmon.h` is not among the sources; slot 1
of `type_cb` holds the alert handler. -/
abbrev NET_DM_CMD_ALERT : Nat := 1

/-- Modelled from the spec: `net_dropmon.h` is not among the sources; slot 2
of `type_cb` holds the config handler. -/
abbrev NET_DM_CMD_CONFIG : Nat := 2

/-- Modelled from the spec: `net_dropmon.h` is not among the sources; the
start command is the first of the two codes without a receive handler. -/
abbrev NET_DM_CMD_START : Nat := 3

/-- Modelled from the spec: `net_dropmon.h` is not among the sources; the
stop command is the second of the two codes without a receive handler. -/
abbrev NET_DM_CMD_STOP : Nat := 4

/-- Modelled from the spec: `net_dropmon.h` is not among the sources; the
`type_cb` table is declared with `_NET_DM_CMD_MAX` slots and initialised with
five. -/
abbrev _NET_DM_CMD_MAX : Nat := 5

/-- Modelled from the spec: `net_dropmon.h` is not among the sources; the
largest command code accepted by the range test, the last slot of `type_cb`. -/
abbrev NET_DM_CMD_MAX : Nat := _NET_DM_CMD_MAX - 1

/-- Control state `STATE_IDLE` of the anonymous enum. -/
abbrev STATE_IDLE : Int := 0
/-- Control state `STATE_ACTIVATING`. -/
abbrev STATE_ACTIVATING : Int := 1
/-- Control state `STATE_RECEIVING`. -/
abbrev STATE_RECEIVING : Int := 2
/-- Control state `STATE_RQST_DEACTIVATE`. -/
abbrev STATE_RQST_DEACTIVATE : Int := 3
/-- Control state `STATE_RQST_ACTIVATE`. -/
abbrev STATE_RQST_ACTIVATE : Int := 4
/-- Control state `STATE_DEACTIVATING`. -/
abbrev STATE_DEACTIVATING : Int := 5
/-- Control state `STATE_FAILED`. -/
abbrev STATE_FAILED : Int := 6
/-- Control state `STATE_EXIT`. -/
abbrev STATE_EXIT : Int := 7

/-! ## Data model -/

/-- The three values the function pointer `ack_cb` takes in the program. -/
inductive AckCb where
  | null
  | handle_dm_start_msg
  | handle_dm_stop_msg
deriving DecidableEq, Repr

/-- One netlink frame, given by the fields the program reads or writes: the
outer header (`struct nlmsghdr`), the error body (`struct nlmsgerr`), the
generic-netlink header (`struct genlmsghdr`) and the alert payload
(`struct net_dm_alert_msg`, each point a pair of program counter and drop
count).  The byte layout is not modelled. -/
structure Frame where
  nlmsg_type : Nat
  nlmsg_flags : Nat
  nlmsg_seq : Nat
  error : Int
  err_seq : Nat
  cmd : Nat
  entries : Nat
  points : List (Nat × Nat)
deriving DecidableEq, Repr

/-- The C `struct netlink_message`.  `msg` is the frame the `void *msg`
pointer refers to, `nlbuf` tells whether the `nlbuf` pointer is non-null. -/
structure netlink_message where
  msg : Frame
  nlbuf : Bool
  refcnt : Int
  seq : Int
  ack_cb : AckCb
  next : Addr
  prev : Addr
deriving DecidableEq, Repr

/-- A heap object: the last contents of the struct and whether `free` has
been called on it. -/
structure Slot where
  val : netlink_message
  freed : Bool
deriving DecidableEq, Repr

/-- The fixed texts the program prints. -/
inductive Text where
  | got_sigint_while_not_receiving
  | trying_to_get_a_netlink_msg
  | got_a_netlink_message
  | receive_operation_failed
  | got_drop_notifications
  | got_a_config_message
  | kernel_monitoring_activated
  | issue_ctrl_c_to_stop_monitoring
  | odd_kernel_activated_unasked
  | got_a_stop_message
  | enabling_monitoring
  | unable_to_send_activation_msg
  | waiting_for_activation_ack
  | deactivation_requested
  | unable_to_send_deactivation_msg
  | waiting_for_deactivation_ack
  | unknown_state_received
deriving DecidableEq, Repr

/-- What the program does that is visible from outside the function doing
it: output, calls into the allocator and the netlink library, and the calls
the claims count or order (`free_netlink_msg`, `set_ack_cb`, the callbacks). -/
inductive Event where
  | printf (t : Text)
  | perror (t : Text)
  | printf_unknown_type (type : Nat)
  | printf_drops (count pc : Nat)
  | printf_failed_activation (errnum : Int)
  | prompt
  | free_input
  | call_free_netlink_msg (msg : Addr)
  | call_set_ack_cb (msg : Addr) (cb : AckCb)
  | nlmsg_free (owner : Addr)
  | free_buf (owner : Addr)
  | free_struct (msg : Addr)
  | call_ack_cb (cb : AckCb) (amsg msg : Addr) (err : Int)
  | call_type_cb (slot : Nat) (msg : Addr) (err : Int)
  | nl_send (msg : Addr) (rc : Int)
  | sigaction_sigint
deriving DecidableEq, Repr

/-- One return of `nl_recv`: nothing read (`rc == 0`), a failure with the
value of `errno`, or a frame. -/
inductive NlRecv where
  | zero
  | fail (errno : Nat)
  | data (f : Frame)
deriving DecidableEq, Repr

/-- The whole program state.  `head`, `state`, `nsf` are the globals of the
same name, `seq` is the `static uint32_t seq` of `alloc_netlink_msg`.
`stdin`, `rx`, `tx`, `oom` are what the environment will answer to the next
calls of `readline`, `nl_recv`, `nl_send` and `malloc` (`true` in `oom` is a
failing `malloc`; an exhausted `oom` or `tx` answers success, an exhausted
`stdin` is end of input, an exhausted `rx` blocks for ever). -/
structure World where
  heap : List Slot
  head : Addr
  state : Int
  seq : Nat
  nsf : Nat
  sigint_armed : Bool
  stdin : List String
  rx : List NlRecv
  tx : List Int
  oom : List Bool
  trace : List Event
deriving DecidableEq, Repr

/-- The ways the C program leaves defined behaviour. -/
inductive Fault where
  | null_deref
  | use_after_free
  | wild_pointer
  | null_call
  | out_of_bounds
deriving DecidableEq, Repr

/-- Outcome of running a piece of the program: it returned `a`, it faulted,
or the model ran out of fuel or input (the program is still running or
blocked).  Every outcome carries the world reached. -/
inductive Res (α : Type) where
  | ok (a : α) (w : World)
  | fault (f : Fault) (w : World)
  | timeout (w : World)
deriving DecidableEq, Repr

/-- The world an outcome ended in. -/
def Res.world {α : Type} : Res α → World
  | .ok _ w => w
  | .fault _ w => w
  | .timeout w => w

/-- A C function body: a world transformer with an outcome. -/
def M (α : Type) : Type := World → Res α

/-- Sequencing of two pieces of code; a fault or timeout ends the run. -/
def M.bind {α β : Type} (m : M α) (f : α → M β) : M β := fun w =>
  match m w with
  | .ok a w1 => f a w1
  | .fault e w1 => .fault e w1
  | .timeout w1 => .timeout w1

instance : Monad M where
  pure a := fun w => .ok a w
  bind := M.bind

/-- Undefined behaviour. -/
def fault {α : Type} (f : Fault) : M α := fun w => .fault f w

/-- The program does not get past this point. -/
def blocked {α : Type} : M α := fun w => .timeout w

/-- Read the whole world. -/
def getW : M World := fun w => .ok w w

/-- Change the world. -/
def modW (f : World → World) : M Unit := fun w => .ok () (f w)

/-- Append one event to the trace. -/
def emit (e : Event) : M Unit := modW fun w => { w with trace := w.trace ++ [e] }

/-- The slot an address refers to, if the address was ever allocated. -/
def World.slot (w : World) (a : Addr) : Option Slot :=
  if a = NULL then none else w.heap[a - 1]?

/-- The struct at a live address. -/
def World.live (w : World) (a : Addr) : Option netlink_message :=
  match w.slot a with
  | some s => if s.freed then none else some s.val
  | none => none

/-- Read through a pointer `p->...`: a fault unless `p` is a live object. -/
def deref (a : Addr) : M netlink_message := fun w =>
  if a = NULL then .fault .null_deref w
  else match w.heap[a - 1]? with
    | none => .fault .wild_pointer w
    | some s => if s.freed then .fault .use_after_free w else .ok s.val w

/-- The world with the slot at a non-null address replaced. -/
def World.put (w : World) (a : Addr) (s : Slot) : World :=
  if a = NULL then w else { w with heap := w.heap.set (a - 1) s }

/-- Write through a pointer: `*p = v`, a fault unless `p` is a live object. -/
def store (a : Addr) (v : netlink_message) : M Unit := do
  let _ ← deref a
  modW fun w => w.put a ⟨v, false⟩

/-- The contents of a block fresh from `malloc`.  In C they are indeterminate;
no path of the program reads a field of a new struct before writing it. -/
def blank : netlink_message :=
  { msg := ⟨0, 0, 0, 0, 0, 0, 0, []⟩, nlbuf := false, refcnt := 0, seq := 0,
    ack_cb := .null, next := NULL, prev := NULL }

/-- The library call `malloc(sizeof(struct netlink_message))`: `NULL` when
the environment says so, else a block at a new address. -/
def malloc : M Addr := fun w =>
  match w.oom with
  | true :: rest => .ok NULL { w with oom := rest }
  | false :: rest =>
      .ok (w.heap.length + 1) { w with oom := rest, heap := w.heap ++ [⟨blank, false⟩] }
  | [] => .ok (w.heap.length + 1) { w with heap := w.heap ++ [⟨blank, false⟩] }

/-- The library call `free(msg)` on a struct: the object is dead from here on. -/
def free_struct (a : Addr) : M Unit := do
  let m ← deref a
  modW fun w => w.put a ⟨m, true⟩
  emit (.free_struct a)

/-- Conversion of a `uint32_t` to `int` (two's complement, as gcc does). -/
def toInt32 (n : Nat) : Int :=
  if n % 2 ^ 32 < 2 ^ 31 then (n % 2 ^ 32 : Nat) else (n % 2 ^ 32 : Nat) - 2 ^ 32

/-- Conversion of an `int` to `uint32_t`, the usual arithmetic conversion in
a comparison of an `int` with a `__u32`. -/
def toUInt32 (i : Int) : Nat := (i % 2 ^ 32).toNat

/-! ## Message lifecycle -/

/-- The C function `alloc_netlink_msg`.  The arithmetic on `size` only feeds
the header length passed to `genlmsg_put` and is not modelled; `nlmsg_alloc`
and `genlmsg_put` are taken to succeed. -/
def alloc_netlink_msg (type flags _size : Nat) : M Addr := do
  let msg ← malloc
  if msg = NULL then
    pure NULL
  else do
    let w ← getW
    let m ← deref msg
    store msg { m with refcnt := 1, nlbuf := true }
    let m ← deref msg
    store msg { m with msg := { nlmsg_type := w.nsf, nlmsg_flags := flags, nlmsg_seq := w.seq,
                                error := 0, err_seq := 0, cmd := type, entries := 0, points := [] } }
    let m ← deref msg
    store msg { m with ack_cb := .null }
    let m ← deref msg
    store msg { m with next := NULL, prev := NULL }
    let m ← deref msg
    store msg { m with seq := toInt32 w.seq }
    modW fun w => { w with seq := (w.seq + 1) % 2 ^ 32 }
    pure msg

/-- The C function `set_ack_cb`. -/
def set_ack_cb (msg : Addr) (cb : AckCb) : M Unit := do
  emit (.call_set_ack_cb msg cb)
  let w ← getW
  if w.head = NULL then
    modW fun w => { w with head := msg }
  else do
    let m ← deref msg
    store msg { m with next := w.head }
    modW fun w => { w with head := msg }
    let m ← deref msg
    let n ← deref m.next
    store m.next { n with prev := msg }
  let m ← deref msg
  store msg { m with ack_cb := cb }

/-- The C function `wrap_netlink_msg`. -/
def wrap_netlink_msg (buf : Frame) : M Addr := do
  let msg ← malloc
  if msg ≠ NULL then
    let m ← deref msg
    store msg { m with refcnt := 1 }
    let m ← deref msg
    store msg { m with msg := buf }
    let m ← deref msg
    store msg { m with nlbuf := false }
  pure msg

/-- The C function `free_netlink_msg`. -/
def free_netlink_msg (msg : Addr) : M Int := do
  emit (.call_free_netlink_msg msg)
  let m ← deref msg
  store msg { m with refcnt := m.refcnt - 1 }
  let m ← deref msg
  let refcnt := m.refcnt
  if refcnt = 0 then
    let m ← deref msg
    if m.nlbuf then
      emit (.nlmsg_free msg)
    else
      emit (.free_buf msg)
    free_struct msg
  pure refcnt

/-- The C function `send_netlink_message`; the return code of `nl_send` is
the next answer of the environment. -/
def send_netlink_message (msg : Addr) : M Int := do
  let _ ← deref msg
  let w ← getW
  let rc := w.tx.headD 0
  modW fun w => { w with tx := w.tx.tail }
  emit (.nl_send msg rc)
  pure rc

/-! ## Handlers -/

/-- The C function `sigint_handler`. -/
def sigint_handler (_signum : Int) : M Unit := do
  let w ← getW
  if w.state = STATE_RECEIVING ∨ w.state = STATE_RQST_DEACTIVATE then
    modW fun w => { w with state := STATE_RQST_DEACTIVATE }
  else
    emit (.printf .got_sigint_while_not_receiving)

/-- The `for` loop of `handle_dm_alert_msg`: `todo` iterations are left and
the index is `i`.  Reading past the points the frame carries is a fault. -/
def alert_loop (alert : Frame) : Nat → Nat → M Unit
  | 0, _ => pure ()
  | todo + 1, i => do
      match alert.points[i]? with
      | none => fault .out_of_bounds
      | some (pc, count) => emit (.printf_drops count pc)
      alert_loop alert todo (i + 1)

/-- The C function `handle_dm_alert_msg`. -/
def handle_dm_alert_msg (msg : Addr) (_err : Int) : M Unit := do
  let m ← deref msg
  let alert := m.msg
  let w ← getW
  if w.state ≠ STATE_RECEIVING then
    pure ()
  else do
    emit (.printf .got_drop_notifications)
    alert_loop alert alert.entries 0
  let _ ← free_netlink_msg msg

/-- The C function `handle_dm_config_msg`. -/
def handle_dm_config_msg (_msg : Addr) (_err : Int) : M Unit :=
  emit (.printf .got_a_config_message)

/-- The C function `handle_dm_start_msg`. -/
def handle_dm_start_msg (_amsg msg : Addr) (err : Int) : M Unit := do
  if err ≠ 0 then
    emit (.printf_failed_activation (err * (-1)))
    modW fun w => { w with state := STATE_FAILED }
  else do
    let w ← getW
    if w.state = STATE_ACTIVATING then
      emit (.printf .kernel_monitoring_activated)
      emit (.printf .issue_ctrl_c_to_stop_monitoring)
      emit .sigaction_sigint
      modW fun w => { w with sigint_armed := true }
      modW fun w => { w with state := STATE_RECEIVING }
    else
      emit (.printf .odd_kernel_activated_unasked)
      modW fun w => { w with state := STATE_FAILED }
  let _ ← free_netlink_msg msg

/-- The C function `handle_dm_stop_msg`. -/
def handle_dm_stop_msg (_amsg msg : Addr) (err : Int) : M Unit := do
  emit (.printf .got_a_stop_message)
  if err = 0 then
    modW fun w => { w with state := STATE_IDLE }
  let _ ← free_netlink_msg msg

/-- A call through the function pointer `ack_cb`. -/
def call_ack_cb (cb : AckCb) (amsg msg : Addr) (err : Int) : M Unit :=
  match cb with
  | .null => fault .null_call
  | .handle_dm_start_msg => do
      emit (.call_ack_cb cb amsg msg err)
      handle_dm_start_msg amsg msg err
  | .handle_dm_stop_msg => do
      emit (.call_ack_cb cb amsg msg err)
      handle_dm_stop_msg amsg msg err

/-- The table `type_cb`: five slots, the alert and config handlers in slots
1 and 2, null pointers elsewhere. -/
def type_cb : List (Option (Addr → Int → M Unit)) :=
  [none, some handle_dm_alert_msg, some handle_dm_config_msg, none, none]

/-- A call `type_cb[type](msg, err)` through the table. -/
def call_type_cb (type : Nat) (msg : Addr) (err : Int) : M Unit :=
  match type_cb[type]? with
  | none => fault .out_of_bounds
  | some none => fault .null_call
  | some (some handler) => do
      emit (.call_type_cb type msg err)
      handler msg err

/-! ## Receive dispatcher -/

/-- The `do ... while (rc == 0)` loop of `recv_netlink_message` around
`nl_recv`, run on the answers the environment still holds.  The result is
`none` where the C code returns `NULL` from inside the loop, else the frame
left in `buf`. -/
def nl_recv_loop : List NlRecv → M (Option Frame)
  | [] => blocked
  | r :: rest => do
      modW fun w => { w with rx := rest }
      emit (.printf .got_a_netlink_message)
      match r with
      | .fail errno =>
          if errno = EINTR then
            pure none
          else do
            emit (.perror .receive_operation_failed)
            pure none
      | .zero => nl_recv_loop rest
      | .data f => pure (some f)

/-- The `while (am != NULL)` loop of `recv_netlink_message`, from its test
on; the result is the value of `am` when the loop is left.  The body has no
statement that changes `am`, so an entry that does not match is tested
again. -/
def ack_loop (msg : Addr) (errm : Frame) : Nat → Addr → M Addr
  | 0, _ => blocked
  | fuel + 1, am =>
      if am = NULL then
        pure am
      else do
        let a ← deref am
        if toUInt32 a.seq = errm.err_seq then
          let a ← deref am
          if a.prev ≠ NULL then
            let p ← deref a.prev
            store a.prev { p with next := a.next }
          let a ← deref am
          if a.next ≠ NULL then
            let n ← deref a.next
            store a.next { n with prev := a.prev }
          let a ← deref am
          if a.next = NULL ∧ a.prev = NULL then
            modW fun w => { w with head := NULL }
          let a ← deref am
          call_ack_cb a.ack_cb msg am errm.error
          pure am
        else
          ack_loop msg errm fuel am

/-- The C function `recv_netlink_message`; `fuel` bounds the iterations of
its `while` loop.  The result is the pointer returned. -/
def recv_netlink_message (fuel : Nat) : M Addr := do
  emit (.printf .trying_to_get_a_netlink_msg)
  let w ← getW
  let r ← nl_recv_loop w.rx
  match r with
  | none => pure NULL
  | some buf => do
      let msg ← wrap_netlink_msg buf
      let m ← deref msg
      let type := m.msg.nlmsg_type
      if type = NLMSG_ERROR then
        let m ← deref msg
        let errm := m.msg
        let w ← getW
        let am ← ack_loop msg errm fuel w.head
        let _ ← free_netlink_msg am
        let _ ← free_netlink_msg msg
        pure NULL
      else do
        let m ← deref msg
        let type := m.msg.cmd
        if type > NET_DM_CMD_MAX ∨ type ≤ NET_DM_CMD_UNSPEC then
          emit (.printf_unknown_type type)
          let _ ← free_netlink_msg msg
          pure NULL
        else
          pure msg

/-- The C function `process_rx_message`. -/
def process_rx_message (fuel : Nat) : M Unit := do
  let msg ← recv_netlink_message fuel
  let err : Int := 0
  if msg ≠ NULL then
    let m ← deref msg
    let type := m.msg.cmd
    call_type_cb type msg err

/-! ## Control state machine -/

/-- The C function `enable_drop_monitor`. -/
def enable_drop_monitor : M Int := do
  let msg ← alloc_netlink_msg NET_DM_CMD_START (NLM_F_REQUEST ||| NLM_F_ACK) 0
  set_ack_cb msg .handle_dm_start_msg
  send_netlink_message msg

/-- The C function `disable_drop_monitor`. -/
def disable_drop_monitor : M Int := do
  let msg ← alloc_netlink_msg NET_DM_CMD_STOP (NLM_F_REQUEST ||| NLM_F_ACK) 0
  set_ack_cb msg .handle_dm_stop_msg
  send_netlink_message msg

/-- The `do ... while (1)` loop of `enter_command_line_mode` on the lines the
operator still has to type.  At end of input `readline` returns `NULL`, which
`strcmp` dereferences. -/
def command_line_loop : List String → M Unit
  | [] => do
      emit .prompt
      fault .null_deref
  | input :: rest => do
      emit .prompt
      modW fun w => { w with stdin := rest }
      if input = "start" then
        modW fun w => { w with state := STATE_RQST_ACTIVATE }
      else if input = "stop" then
        modW fun w => { w with state := STATE_RQST_DEACTIVATE }
      else if input = "exit" then
        modW fun w => { w with state := STATE_EXIT }
      else do
        emit .free_input
        command_line_loop rest

/-- The C function `enter_command_line_mode`. -/
def enter_command_line_mode : M Unit := fun w => command_line_loop w.stdin w

/-- The `switch (state)` statement of `enter_state_loop`.  The argument is
the local `should_rx` before it; the result is `none` where the C code
returns from `enter_state_loop`, else the value of `should_rx` after it. -/
def state_switch (should_rx : Bool) : M (Option Bool) := do
  let w ← getW
  if w.state = STATE_IDLE then
    enter_command_line_mode
    pure (some false)
  else if w.state = STATE_RQST_ACTIVATE then
    emit (.printf .enabling_monitoring)
    let rc ← enable_drop_monitor
    if rc < 0 then
      emit (.perror .unable_to_send_activation_msg)
      modW fun w => { w with state := STATE_FAILED }
      pure (some should_rx)
    else
      modW fun w => { w with state := STATE_ACTIVATING }
      pure (some true)
  else if w.state = STATE_ACTIVATING then
    emit (.printf .waiting_for_activation_ack)
    pure (some should_rx)
  else if w.state = STATE_RECEIVING then
    pure (some should_rx)
  else if w.state = STATE_RQST_DEACTIVATE then
    emit (.printf .deactivation_requested)
    let rc ← disable_drop_monitor
    if rc < 0 then
      emit (.perror .unable_to_send_deactivation_msg)
      modW fun w => { w with state := STATE_FAILED }
      pure (some should_rx)
    else
      modW fun w => { w with state := STATE_DEACTIVATING }
      pure (some should_rx)
  else if w.state = STATE_DEACTIVATING then
    emit (.printf .waiting_for_deactivation_ack)
    pure (some should_rx)
  else if w.state = STATE_EXIT ∨ w.state = STATE_FAILED then
    pure none
  else
    emit (.printf .unknown_state_received)
    modW fun w => { w with state := STATE_FAILED }
    pure (some false)

/-- One pass through the body of the `while (1)` loop of `enter_state_loop`:
the `switch`, then the receive if `should_rx` is set. -/
def state_loop_body (fuel : Nat) (should_rx : Bool) : M (Option Bool) := do
  let r ← state_switch should_rx
  match r with
  | none => pure none
  | some rx => do
      if rx then
        process_rx_message fuel
      pure (some rx)

/-- The `while (1)` loop of `enter_state_loop`, entered with the given value
of `should_rx`; `fuel` bounds the number of passes. -/
def state_loop : Nat → Bool → M Unit
  | 0, _ => blocked
  | fuel + 1, should_rx => do
      let r ← state_loop_body fuel should_rx
      match r with
      | none => pure ()
      | some rx => state_loop fuel rx

/-- The C function `enter_state_loop`. -/
def enter_state_loop (fuel : Nat) : M Unit := state_loop fuel false

/-- The program state when `main` calls `enter_state_loop`: nothing
allocated, nothing registered, `state` is `STATE_IDLE`, and the environment
answers as given. -/
def World.init (nsf : Nat) (stdin : List String) (rx : List NlRecv) (tx : List Int)
    (oom : List Bool) : World :=
  { heap := [], head := NULL, state := STATE_IDLE, seq := 0, nsf := nsf, sigint_armed := false,
    stdin := stdin, rx := rx, tx := tx, oom := oom, trace := [] }

/-- The struct `wrap_netlink_msg` leaves around the frame `f`. -/
def wrapped (f : Frame) : netlink_message := { blank with refcnt := 1, msg := f, nlbuf := false }

/-! ## Sample inputs -/

/-- An ack/error frame for the request with sequence number `seq`, carrying
the result code `err`. -/
def ack_frame (seq : Nat) (err : Int) : Frame :=
  { nlmsg_type := NLMSG_ERROR, nlmsg_flags := 0, nlmsg_seq := seq, error := err, err_seq := seq,
    cmd := 0, entries := 0, points := [] }

/-- A command frame of the family `nsf` with command code `cmd` and alert
payload `points`. -/
def cmd_frame (nsf cmd : Nat) (points : List (Nat × Nat)) : Frame :=
  { nlmsg_type := nsf, nlmsg_flags := 0, nlmsg_seq := 0, error := 0, err_seq := 0,
    cmd := cmd, entries := points.length, points := points }

/-- The program state at start, family number 16, with an environment that
has nothing to say. -/
def World.start : World := World.init 16 [] [] [] []

/-- A command Message built by `alloc_netlink_msg` and registered with
`set_ack_cb` under the callback `cb`. -/
def register_command (type : Nat) (cb : AckCb) : M Addr := do
  let msg ← alloc_netlink_msg type (NLM_F_REQUEST ||| NLM_F_ACK) 0
  set_ack_cb msg cb
  pure msg

/-- The world reached from `World.start` by registering one command Message
(it has sequence number 0 and address 1) with callback `cb`, then in control
state `st` with the frame `f` waiting on the socket. -/
def World.pending_one (cb : AckCb) (st : Int) (f : Frame) : World :=
  { (register_command NET_DM_CMD_START cb World.start).world with state := st, rx := [.data f] }

/-- The world reached from `World.start` by registering a start command
(sequence number 0, address 1) and then a stop command (sequence number 1,
address 2, the head of the registry), with the frame `f` waiting on the
socket. -/
def World.pending_two (st : Int) (f : Frame) : World :=
  { ((register_command NET_DM_CMD_START .handle_dm_start_msg >>= fun _ =>
      register_command NET_DM_CMD_STOP .handle_dm_stop_msg) World.start).world with
    state := st, rx := [.data f] }

/-- The command Message `alloc_netlink_msg` builds when the family number is
`nsf` and the static counter is `seq`. -/
def command (nsf type flags seq : Nat) : netlink_message :=
  { msg := { nlmsg_type := nsf, nlmsg_flags := flags, nlmsg_seq := seq, error := 0, err_seq := 0,
             cmd := type, entries := 0, points := [] },
    nlbuf := true, refcnt := 1, seq := toInt32 seq, ack_cb := .null, next := NULL, prev := NULL }

/-- The world reached from `World.start` by registering a start command
(address 1) and then building, and not yet registering, a stop command
(address 2). -/
def World.one_pending_one_built : World :=
  ((register_command NET_DM_CMD_START .handle_dm_start_msg >>= fun _ =>
    alloc_netlink_msg NET_DM_CMD_STOP (NLM_F_REQUEST ||| NLM_F_ACK) 0) World.start).world

/-- The world after `k` further calls of `alloc_netlink_msg`.  The static
counter is local to that function, so nothing the program does between two
calls changes it. -/
def alloc_calls (type flags size : Nat) : Nat → World → World
  | 0, w => w
  | k + 1, w => alloc_calls type flags size k (alloc_netlink_msg type flags size w).world

/-- The `seq` field of the Message that a call of `alloc_netlink_msg` in the
world `w` returns, if it returns one. -/
def alloc_seq (type flags size : Nat) (w : World) : Option Int :=
  match alloc_netlink_msg type flags size w with
  | .ok a w1 => (w1.live a).map netlink_message.seq
  | .fault _ _ => none
  | .timeout _ => none

/-- The code `m` leaves the control state as it found it, whatever its
outcome. -/
def KeepsState {α : Type} (m : M α) : Prop := ∀ w, (m w).world.state = w.state

/-- The program state at start when the operator is about to type `start`
and the next `nl_send` is going to fail. -/
def World.start_then_send_fails : World := World.init 16 ["start"] [] [-1] []

/-- A command Message pending in the state FAILED, nothing waiting on the
socket. -/
def World.failed_with_pending_stop : World :=
  { World.pending_one .handle_dm_stop_msg STATE_FAILED (ack_frame 0 0) with rx := [] }

/-- A command Message pending in the state EXIT, nothing waiting on the
socket. -/
def World.exit_with_pending_start : World :=
  { World.pending_one .handle_dm_start_msg STATE_EXIT (ack_frame 0 0) with rx := [] }

/-- The world reached from `World.start` by building one command Message
(address 1, count 1) that is not registered yet. -/
def World.one_built : World :=
  (alloc_netlink_msg NET_DM_CMD_START (NLM_F_REQUEST ||| NLM_F_ACK) 0 World.start).world

/-- The world `free_netlink_msg` leaves when called on the live Message `m`
at address `a`. -/
def World.after_free (w : World) (a : Addr) (m : netlink_message) : World :=
  if m.refcnt - 1 = 0 then
    { w.put a ⟨{ m with refcnt := m.refcnt - 1 }, true⟩ with
      trace := w.trace ++ [.call_free_netlink_msg a,
                 if m.nlbuf then .nlmsg_free a else .free_buf a, .free_struct a] }
  else
    { w.put a ⟨{ m with refcnt := m.refcnt - 1 }, false⟩ with
      trace := w.trace ++ [.call_free_netlink_msg a] }

/-- The trace of `k` rejected operator lines: a prompt and the `free` of the
line, each time. -/
def rejected_lines : Nat → List Event
  | 0 => []
  | k + 1 => .prompt :: .free_input :: rejected_lines k

/-- The report line printed for one alert point `(pc, count)`. -/
def report_line (p : Nat × Nat) : Event := .printf_drops p.2 p.1

/-- The command Message of a request as it sits in the registry: built for
the command `type` with the counter at `seq`, registered under `cb` in front
of the old head `next`. -/
def registered (nsf type seq : Nat) (cb : AckCb) (next : Addr) : netlink_message :=
  { command nsf type (NLM_F_REQUEST ||| NLM_F_ACK) seq with ack_cb := cb, next := next }

/-- The program state at start when the operator is about to type `stop`, the
send is going to succeed and the success ack for sequence number 0 is
waiting on the socket. -/
def World.stop_typed_ack_waiting : World :=
  World.init 16 ["stop"] [.data (ack_frame 0 0)] [0] []

/-- The control state is ACTIVATING and the next `nl_recv` fails with
`EBADF` (9). -/
def World.activating_receive_fails : World :=
  { World.start with state := STATE_ACTIVATING, rx := [.fail 9] }

/-- The world in control state `st` after `wrap_netlink_msg` has wrapped an
alert frame with the given points; the Message is at address 1. -/
def World.alert_delivered (st : Int) (points : List (Nat × Nat)) : World :=
  (wrap_netlink_msg (cmd_frame 16 NET_DM_CMD_ALERT points) { World.start with state := st }).world

/-- The program state at start with an operator who types five lines that
are not commands, then `exit`, then `start`. -/
def World.operator_fumbles : World :=
  World.init 16 ["Start", " stop", "exi", "exit now", "", "exit", "start"] [] [] []

/-- One start command is registered (address 1), the state is
REQUEST_DEACTIVATE and the next send is going to succeed. -/
def World.deactivation_requested : World :=
  { World.pending_one .handle_dm_start_msg STATE_RQST_DEACTIVATE (ack_frame 0 0) with
    rx := [], tx := [0] }

@[simp] theorem pure_run {α : Type} (a : α) (w : World) : (pure a : M α) w = .ok a w := rfl

theorem bind_run {α β : Type} (m : M α) (f : α → M β) (w : World) :
    (m >>= f) w = match m w with
      | .ok a w1 => f a w1
      | .fault e w1 => .fault e w1
      | .timeout w1 => .timeout w1 := rfl

theorem bind_ok {α β : Type} {m : M α} {f : α → M β} {w w1 : World} {a : α}
    (h : m w = .ok a w1) : (m >>= f) w = f a w1 := by
  rw [bind_run, h]

@[simp] theorem getW_run (w : World) : getW w = .ok w w := rfl
@[simp] theorem modW_run (f : World → World) (w : World) : modW f w = .ok () (f w) := rfl
@[simp] theorem emit_run (e : Event) (w : World) :
    emit e w = .ok () { w with trace := w.trace ++ [e] } := rfl
@[simp] theorem fault_run {α : Type} (f : Fault) (w : World) : (fault f : M α) w = .fault f w := rfl

theorem live_iff {w : World} {a : Addr} {m : netlink_message} :
    w.live a = some m ↔ a ≠ NULL ∧ w.heap[a - 1]? = some ⟨m, false⟩ := by
  unfold World.live World.slot
  by_cases ha : a = NULL
  · simp [ha]
  · simp only [ha, if_false, ne_eq, not_false_eq_true, true_and]
    cases hg : w.heap[a - 1]? with
    | none => simp
    | some s =>
      obtain ⟨v, fr⟩ := s
      cases fr <;> simp

theorem deref_of_live {w : World} {a : Addr} {m : netlink_message} (h : w.live a = some m) :
    deref a w = .ok m w := by
  obtain ⟨ha, hg⟩ := live_iff.mp h
  simp [deref, ha, hg]

theorem live_put_same {w : World} {a : Addr} {m : netlink_message} (v : netlink_message)
    (h : w.live a = some m) : (w.put a ⟨v, false⟩).live a = some v := by
  obtain ⟨ha, hg⟩ := live_iff.mp h
  rw [live_iff]
  refine ⟨ha, ?_⟩
  have hlt : a - 1 < w.heap.length := by
    rcases List.getElem?_eq_some.mp hg with ⟨hl, _⟩
    exact hl
  simp [World.put, ha, List.getElem?_set, hlt]

theorem store_of_live {w : World} {a : Addr} {m : netlink_message} (v : netlink_message)
    (h : w.live a = some m) : store a v w = .ok () (w.put a ⟨v, false⟩) := by
  simp [store, bind_run, deref_of_live h]

theorem slot_put_same {w : World} {a : Addr} {m : netlink_message} (s : Slot)
    (h : w.live a = some m) : (w.put a s).slot a = some s := by
  obtain ⟨ha, hg⟩ := live_iff.mp h
  have hlt : a - 1 < w.heap.length := by
    rcases List.getElem?_eq_some.mp hg with ⟨hl, _⟩
    exact hl
  simp [World.put, World.slot, ha, List.getElem?_set, hlt]


theorem live_trace (w : World) (t : List Event) (a : Addr) :
    ({ w with trace := t } : World).live a = w.live a := rfl

theorem malloc_run (w : World) (h : w.oom = []) :
    malloc w = .ok (w.heap.length + 1) { w with heap := w.heap ++ [⟨blank, false⟩] } := by
  simp [malloc, h]


@[simp] theorem wrapped_msg (f : Frame) : (wrapped f).msg = f := rfl
@[simp] theorem wrapped_refcnt (f : Frame) : (wrapped f).refcnt = 1 := rfl
@[simp] theorem wrapped_nlbuf (f : Frame) : (wrapped f).nlbuf = false := rfl

theorem wrap_netlink_msg_run (f : Frame) (w : World) (h : w.oom = []) :
    wrap_netlink_msg f w =
      .ok (w.heap.length + 1) { w with heap := w.heap ++ [⟨wrapped f, false⟩] } := by
  simp [wrap_netlink_msg, bind_run, malloc_run w h, deref, store, World.put, wrapped]

theorem live_append (w w1 : World) (s : Slot) (a : Addr) (m : netlink_message)
    (hw : w1.heap = w.heap ++ [s]) (h : w.live a = some m) : w1.live a = some m := by
  obtain ⟨ha, hg⟩ := live_iff.mp h
  rw [live_iff]
  refine ⟨ha, ?_⟩
  have hlt : a - 1 < w.heap.length := by
    rcases List.getElem?_eq_some.mp hg with ⟨hl, _⟩
    exact hl
  simp [hw, List.getElem?_append_left hlt, hg]

theorem ack_loop_spin (msg : Addr) (errm : Frame) (am : Addr) (m : netlink_message) (w : World)
    (h : w.live am = some m) (hne : toUInt32 m.seq ≠ errm.err_seq) (fuel : Nat) :
    ack_loop msg errm fuel am w = .timeout w := by
  obtain ⟨ha, _⟩ := live_iff.mp h
  induction fuel with
  | zero => rfl
  | succ n ih =>
    rw [ack_loop]
    simp [ha, bind_run, deref_of_live h, hne, ih]

theorem recv_netlink_message_spin (w : World) (f : Frame) (rest : List NlRecv) (m : netlink_message)
    (hrx : w.rx = .data f :: rest) (hf : f.nlmsg_type = NLMSG_ERROR) (hoom : w.oom = [])
    (h : w.live w.head = some m) (hne : toUInt32 m.seq ≠ f.err_seq) (fuel : Nat) :
    recv_netlink_message fuel w =
      .timeout { w with rx := rest, heap := w.heap ++ [⟨wrapped f, false⟩],
                        trace := w.trace ++ [.printf .trying_to_get_a_netlink_msg,
                                             .printf .got_a_netlink_message] } := by
  obtain ⟨heap, head, state, seq, nsf, armed, stdin, rx, tx, oom, trace⟩ := w
  simp only at hrx hoom h
  subst hrx hoom
  have hl := live_append _
    { heap := heap ++ [⟨wrapped f, false⟩], head := head, state := state, seq := seq, nsf := nsf,
      sigint_armed := armed, stdin := stdin, rx := rest, tx := tx, oom := [],
      trace := trace ++ [.printf .trying_to_get_a_netlink_msg, .printf .got_a_netlink_message] }
    _ _ _ rfl h
  simp [recv_netlink_message, bind_run, nl_recv_loop, wrap_netlink_msg_run, deref, hf,
    ack_loop_spin _ _ _ m _ hl hne]

theorem handle_dm_start_msg_run (amsg msg : Addr) (err : Int) (w : World) :
    handle_dm_start_msg amsg msg err w =
      (free_netlink_msg msg >>= fun _ => pure ())
        (if err ≠ 0 then
          { w with state := STATE_FAILED,
                   trace := w.trace ++ [.printf_failed_activation (err * (-1))] }
        else if w.state = STATE_ACTIVATING then
          { w with state := STATE_RECEIVING, sigint_armed := true,
                   trace := w.trace ++ [.printf .kernel_monitoring_activated,
                     .printf .issue_ctrl_c_to_stop_monitoring, .sigaction_sigint] }
        else
          { w with state := STATE_FAILED,
                   trace := w.trace ++ [.printf .odd_kernel_activated_unasked] }) := by
  by_cases he : err = 0
  · by_cases hs : w.state = STATE_ACTIVATING
    · simp [handle_dm_start_msg, bind_run, he, hs]
    · simp [handle_dm_start_msg, bind_run, he, hs]
  · simp [handle_dm_start_msg, bind_run, he]

theorem handle_dm_stop_msg_run (amsg msg : Addr) (err : Int) (w : World) :
    handle_dm_stop_msg amsg msg err w =
      (free_netlink_msg msg >>= fun _ => pure ())
        { w with state := if err = 0 then STATE_IDLE else w.state,
                 trace := w.trace ++ [.printf .got_a_stop_message] } := by
  by_cases he : err = 0
  · simp [handle_dm_stop_msg, bind_run, he]
  · simp [handle_dm_stop_msg, bind_run, he]

theorem call_ack_cb_run (cb : AckCb) (amsg msg : Addr) (err : Int) (w : World) :
    call_ack_cb cb amsg msg err w =
      match cb with
      | .null => .fault .null_call w
      | .handle_dm_start_msg =>
          handle_dm_start_msg amsg msg err
            { w with trace := w.trace ++ [.call_ack_cb cb amsg msg err] }
      | .handle_dm_stop_msg =>
          handle_dm_stop_msg amsg msg err
            { w with trace := w.trace ++ [.call_ack_cb cb amsg msg err] } := by
  cases cb <;> rfl

theorem pending_one_eq (cb : AckCb) (st : Int) (f : Frame) :
    World.pending_one cb st f =
      { heap := [⟨{ msg := ⟨16, 5, 0, 0, 0, 3, 0, []⟩, nlbuf := true, refcnt := 1, seq := 0,
                    ack_cb := cb, next := 0, prev := 0 }, false⟩],
        head := 1, state := st, seq := 1, nsf := 16, sigint_armed := false, stdin := [],
        rx := [.data f], tx := [], oom := [], trace := [.call_set_ack_cb 1 cb] } := rfl

/-- C2: for a live Message `m` at address `a` (in particular one whose
reference count is `n >= 1`), `free_netlink_msg` returns `n - 1`, leaves the
struct with count `n - 1` and otherwise as it was, and the struct is freed by
the call exactly when `n - 1 = 0`; the call releases the buffer (through
`nlmsg_free` or `free`) and the struct in that case and releases nothing
otherwise. -/
theorem free_netlink_msg_spec (w : World) (a : Addr) (m : netlink_message)
    (h : w.live a = some m) :
    ∃ w', free_netlink_msg a w = .ok (m.refcnt - 1) w' ∧
      w'.slot a = some ⟨{ m with refcnt := m.refcnt - 1 }, decide (m.refcnt - 1 = 0)⟩ ∧
      w'.trace = w.trace ++ .call_free_netlink_msg a ::
        (if m.refcnt - 1 = 0 then
          [if m.nlbuf then .nlmsg_free a else .free_buf a, .free_struct a] else []) := by
  obtain ⟨ha, hg⟩ := live_iff.mp h
  have hlt : a - 1 < w.heap.length := by
    rcases List.getElem?_eq_some.mp hg with ⟨hl, _⟩
    exact hl
  by_cases h0 : m.refcnt - 1 = 0
  · cases hb : m.nlbuf <;>
    simp [free_netlink_msg, free_struct, bind_run, deref, store, World.put, World.slot, ha, hg, hlt, h0, hb,
      List.getElem?_set]
  · simp [free_netlink_msg, free_struct, bind_run, deref, store, World.put, World.slot, ha, hg, hlt, h0,
      List.getElem?_set]


set_option maxHeartbeats 1600000 in
/-- C1 (the code departs from the claim): a command Message built by
`alloc_netlink_msg` and registered with `set_ack_cb` under either callback sits
at address 1 with count 1.  When the ack frame with its sequence number and
any result code `err` is dispatched, in any control state, the callback's
`free_netlink_msg` brings the count to 0 and frees the struct, and then
`recv_netlink_message` calls `free_netlink_msg` on the same, freed struct a
second time: the run ends in a use after free, the last two events being the
`free` of the struct and the second call. -/
theorem recv_netlink_message_releases_command_twice (start : Bool) (st err : Int) (fuel : Nat) :
    ∃ w', recv_netlink_message (fuel + 1)
        (World.pending_one (if start then .handle_dm_start_msg else .handle_dm_stop_msg) st
          (ack_frame 0 err)) = .fault .use_after_free w' ∧
      w'.trace.count (.call_free_netlink_msg 1) = 2 ∧
      (w'.slot 1).map Slot.freed = some true ∧
      w'.trace.reverse.take 2 = [.call_free_netlink_msg 1, .free_struct 1] := by
  rw [pending_one_eq]
  cases start with
  | true =>
    by_cases he : err = 0
    · by_cases hs : st = STATE_ACTIVATING
      · simp [recv_netlink_message, bind_run, nl_recv_loop, wrap_netlink_msg_run, deref, ack_frame,
          ack_loop, toUInt32, call_ack_cb_run, handle_dm_start_msg_run, free_netlink_msg, store,
          World.put, free_struct, World.slot, he, hs]
      · simp [recv_netlink_message, bind_run, nl_recv_loop, wrap_netlink_msg_run, deref, ack_frame,
          ack_loop, toUInt32, call_ack_cb_run, handle_dm_start_msg_run, free_netlink_msg, store,
          World.put, free_struct, World.slot, he, hs]
    · simp [recv_netlink_message, bind_run, nl_recv_loop, wrap_netlink_msg_run, deref, ack_frame,
        ack_loop, toUInt32, call_ack_cb_run, handle_dm_start_msg_run, free_netlink_msg, store,
        World.put, free_struct, World.slot, he]
  | false =>
    by_cases he : err = 0
    · simp [recv_netlink_message, bind_run, nl_recv_loop, wrap_netlink_msg_run, deref, ack_frame,
        ack_loop, toUInt32, call_ack_cb_run, handle_dm_stop_msg_run, free_netlink_msg, store,
        World.put, free_struct, World.slot, he]
    · simp [recv_netlink_message, bind_run, nl_recv_loop, wrap_netlink_msg_run, deref, ack_frame,
        ack_loop, toUInt32, call_ack_cb_run, handle_dm_stop_msg_run, free_netlink_msg, store,
        World.put, free_struct, World.slot, he]

theorem pending_two_eq (st : Int) (f : Frame) :
    World.pending_two st f =
      { heap := [⟨{ msg := ⟨16, 5, 0, 0, 0, 3, 0, []⟩, nlbuf := true, refcnt := 1, seq := 0,
                    ack_cb := .handle_dm_start_msg, next := 0, prev := 2 }, false⟩,
                 ⟨{ msg := ⟨16, 5, 1, 0, 0, 4, 0, []⟩, nlbuf := true, refcnt := 1, seq := 1,
                    ack_cb := .handle_dm_stop_msg, next := 1, prev := 0 }, false⟩],
        head := 2, state := st, seq := 2, nsf := 16, sigint_armed := false, stdin := [],
        rx := [.data f], tx := [], oom := [],
        trace := [.call_set_ack_cb 1 .handle_dm_start_msg,
                  .call_set_ack_cb 2 .handle_dm_stop_msg] } := rfl

/-- C3 (the code departs from the claim): with a start command (sequence
number 0) registered first and a stop command (sequence number 1) registered
after it, the registry head is the stop command and the start command is the
second entry.  Dispatching the ack frame for sequence number 0 never ends:
whatever the fuel, `recv_netlink_message` is still inside its `while` loop,
testing the head again, and no callback has been invoked. -/
theorem recv_netlink_message_never_reaches_second_entry (st err : Int) (fuel : Nat) :
    (World.pending_two st (ack_frame 0 err)).head = 2 ∧
    ((World.pending_two st (ack_frame 0 err)).live 1).map netlink_message.seq = some 0 ∧
    ∃ w', recv_netlink_message fuel (World.pending_two st (ack_frame 0 err)) = .timeout w' ∧
      ∀ cb amsg msg e, Event.call_ack_cb cb amsg msg e ∉ w'.trace := by
  have h := recv_netlink_message_spin (World.pending_two st (ack_frame 0 err)) (ack_frame 0 err) []
    { msg := ⟨16, 5, 1, 0, 0, 4, 0, []⟩, nlbuf := true, refcnt := 1, seq := 1,
      ack_cb := .handle_dm_stop_msg, next := 1, prev := 0 }
    rfl rfl rfl rfl (by simp [toUInt32, ack_frame]) fuel
  refine ⟨rfl, rfl, _, h, ?_⟩
  intro cb amsg msg e
  simp [pending_two_eq]

/-- C4 (the code departs from the claim): with an empty registry, an ack
frame with any sequence number and result code makes `recv_netlink_message`
call `free_netlink_msg` on the null pointer left in `am`, which dereferences
it; the Message wrapped around the frame (address 1) is still live, with
count 1, when the run ends there.  With one command (sequence number 0)
registered, an ack frame for any other sequence number keeps
`recv_netlink_message` in its loop for ever. -/
theorem recv_netlink_message_unmatched_ack_faults (seq : Nat) (st err : Int) (fuel : Nat) :
    (∃ w', recv_netlink_message (fuel + 1)
        { World.start with state := st, rx := [.data (ack_frame seq err)] } =
          .fault .null_deref w' ∧
      w'.trace.reverse.take 1 = [.call_free_netlink_msg NULL] ∧
      w'.live 1 = some (wrapped (ack_frame seq err))) ∧
    (∃ w', recv_netlink_message fuel
        (World.pending_one .handle_dm_start_msg st (ack_frame (seq + 1) err)) = .timeout w') :=
  ⟨⟨_, rfl, rfl, rfl⟩, _,
    recv_netlink_message_spin
      (World.pending_one .handle_dm_start_msg st (ack_frame (seq + 1) err))
      (ack_frame (seq + 1) err) []
      { command 16 NET_DM_CMD_START 5 0 with ack_cb := .handle_dm_start_msg }
      rfl rfl rfl rfl (by simp [toUInt32, ack_frame, command, toInt32]) fuel⟩

/-- C5 (the code departs from the claim): a config frame goes to
`handle_dm_config_msg`, which only prints; `process_rx_message` returns with
the Message wrapped around the frame (address 1) still live with count 1, and
no call of `free_netlink_msg` was made on it. -/
theorem process_rx_message_leaks_config_frame (st : Int) (points : List (Nat × Nat)) (fuel : Nat) :
    ∃ w', process_rx_message fuel
        { World.start with state := st, rx := [.data (cmd_frame 16 NET_DM_CMD_CONFIG points)] } =
          .ok () w' ∧
      w'.live 1 = some (wrapped (cmd_frame 16 NET_DM_CMD_CONFIG points)) ∧
      w'.trace.count (.call_free_netlink_msg 1) = 0 :=
  ⟨_, rfl, rfl, rfl⟩

/-- C8 (the code departs from the claim): a frame whose command code is 3 or
4 passes the range test of `recv_netlink_message`, and `process_rx_message`
then calls through the null pointer in that slot of `type_cb`. -/
theorem process_rx_message_calls_null_handler (st : Int) (points : List (Nat × Nat)) (fuel : Nat) :
    (∃ w', process_rx_message fuel
        { World.start with state := st, rx := [.data (cmd_frame 16 NET_DM_CMD_START points)] } =
          .fault .null_call w') ∧
    (∃ w', process_rx_message fuel
        { World.start with state := st, rx := [.data (cmd_frame 16 NET_DM_CMD_STOP points)] } =
          .fault .null_call w') :=
  ⟨⟨_, rfl⟩, ⟨_, rfl⟩⟩

theorem heap_lt_of_live {w : World} {a : Addr} {m : netlink_message} (h : w.live a = some m) :
    a ≠ 0 ∧ ∃ hl : a - 1 < w.heap.length, w.heap[a - 1] = ⟨m, false⟩ := by
  obtain ⟨ha, hg⟩ := live_iff.mp h
  rcases List.getElem?_eq_some.mp hg with ⟨hl, he⟩
  exact ⟨ha, hl, he⟩

theorem pred_ne_pred (a b : Nat) (ha : a ≠ 0) (hb : b ≠ 0) (hab : a ≠ b) : a - 1 ≠ b - 1 := by
  omega

/-- C6 (amended): for a live command Message at address `a` with reference
count `n`, in a registry that is empty or has a live head, `set_ack_cb a cb`
returns with `a` as the head of the registry and `cb` as its callback, its
sequence number as before and the old head (if any) as its `next`; it takes
no reference: the count is still `n`. -/
theorem set_ack_cb_keeps_refcnt (w : World) (a : Addr) (cb : AckCb) (m : netlink_message)
    (h : w.live a = some m) (hh : w.head = NULL ∨ ∃ n, w.live w.head = some n) :
    ∃ w' m', set_ack_cb a cb w = .ok () w' ∧ w'.head = a ∧ w'.live a = some m' ∧
      m'.ack_cb = cb ∧ m'.refcnt = m.refcnt ∧ m'.seq = m.seq ∧
      (w.head ≠ NULL → m'.next = w.head) := by
  obtain ⟨ha, hlt, hg⟩ := heap_lt_of_live h
  rcases hh with h0 | ⟨n, hn⟩
  · simp [set_ack_cb, bind_run, deref, store, World.put, World.live, World.slot, ha, hg, hlt, h0,
      List.getElem?_set]
  · obtain ⟨hb, hblt, hbg⟩ := heap_lt_of_live hn
    by_cases hab : a = w.head
    · subst hab
      simp [set_ack_cb, bind_run, deref, store, World.put, World.live, World.slot, ha, hg, hlt,
        List.getElem?_set]
    · have hidx : ¬ (a - 1 = w.head - 1) := pred_ne_pred a w.head ha hb hab
      have hidx2 : ¬ (w.head - 1 = a - 1) := fun e => hidx e.symm
      simp [set_ack_cb, bind_run, deref, store, World.put, World.live, World.slot, ha, hg, hlt, hb,
        hbg, hblt, hidx, hidx2, List.getElem?_set]

theorem alloc_netlink_msg_run (type flags size : Nat) (w : World) (h : w.oom = []) :
    alloc_netlink_msg type flags size w =
      .ok (w.heap.length + 1)
        { w with heap := w.heap ++ [⟨command w.nsf type flags w.seq, false⟩],
                 seq := (w.seq + 1) % 2 ^ 32 } := by
  simp [alloc_netlink_msg, bind_run, malloc_run w h, deref, store, World.put, command]

theorem alloc_seq_eq (type flags size : Nat) (w : World) (h : w.oom = []) :
    alloc_seq type flags size w = some (toInt32 w.seq) := by
  simp [alloc_seq, alloc_netlink_msg_run type flags size w h, World.live, World.slot, command]

theorem alloc_calls_seq (type flags size : Nat) (k : Nat) (w : World) (h : w.oom = [])
    (hs : w.seq < 2 ^ 32) :
    (alloc_calls type flags size k w).seq = (w.seq + k) % 2 ^ 32 ∧
      (alloc_calls type flags size k w).oom = [] := by
  induction k generalizing w with
  | zero => exact ⟨(Nat.mod_eq_of_lt hs).symm, h⟩
  | succ k ih =>
    have hw : (alloc_netlink_msg type flags size w).world =
        { w with heap := w.heap ++ [⟨command w.nsf type flags w.seq, false⟩],
                 seq := (w.seq + 1) % 2 ^ 32 } := by
      rw [alloc_netlink_msg_run type flags size w h]
      rfl
    rw [alloc_calls, hw]
    generalize hw1 : ({ w with heap := w.heap ++ [⟨command w.nsf type flags w.seq, false⟩],
                               seq := (w.seq + 1) % 2 ^ 32 } : World) = w1
    have ho : w1.oom = [] := by rw [← hw1]; exact h
    have hq : w1.seq = (w.seq + 1) % 2 ^ 32 := by rw [← hw1]
    obtain ⟨h1, h2⟩ := ih w1 ho (by rw [hq]; exact Nat.mod_lt (w.seq + 1) (Nat.two_pow_pos 32))
    refine ⟨?_, h2⟩
    rw [h1, hq]
    simp only [Nat.reducePow]
    omega

/-- C7 (amended): as long as the static counter stays below `2 ^ 31`, the
Message returned by a later call of `alloc_netlink_msg` has a strictly
greater `seq` field than the Message returned by an earlier call, for every
number `k` of calls in between; so two such Messages never share a sequence
number. -/
theorem alloc_netlink_msg_seq_increases (type flags size : Nat) (w : World) (k : Nat)
    (h : w.oom = []) (hk : w.seq + k + 1 < 2 ^ 31) :
    ∃ s1 s2, alloc_seq type flags size w = some s1 ∧
      alloc_seq type flags size (alloc_calls type flags size (k + 1) w) = some s2 ∧ s1 < s2 := by
  have hs : w.seq < 2 ^ 32 := by
    simp only [Nat.reducePow] at hk ⊢
    omega
  obtain ⟨h1, h2⟩ := alloc_calls_seq type flags size (k + 1) w h hs
  refine ⟨_, _, alloc_seq_eq type flags size w h, alloc_seq_eq type flags size _ h2, ?_⟩
  rw [h1]
  simp only [toInt32, Nat.reducePow] at hk ⊢
  have e1 : w.seq % 4294967296 = w.seq := Nat.mod_eq_of_lt (by omega)
  have e2 : (w.seq + (k + 1)) % 4294967296 = w.seq + (k + 1) := Nat.mod_eq_of_lt (by omega)
  rw [Nat.mod_mod, e1, e2, if_pos (by omega), if_pos (by omega)]
  omega

/-- C7 (counterexample): the counter is a `uint32_t` stored into an `int`.
Call number `2 ^ 31` of the process returns a Message with `seq` 2147483647
and the next call one with `seq` -2147483648, which is smaller; and call
number `2 ^ 32 + 1` returns the same `seq` as the first call. -/
theorem alloc_netlink_msg_seq_wraps :
    alloc_seq NET_DM_CMD_START 5 0 (alloc_calls NET_DM_CMD_START 5 0 (2 ^ 31 - 1) World.start) =
      some 2147483647 ∧
    alloc_seq NET_DM_CMD_START 5 0 (alloc_calls NET_DM_CMD_START 5 0 (2 ^ 31) World.start) =
      some (-2147483648) ∧
    alloc_seq NET_DM_CMD_START 5 0 (alloc_calls NET_DM_CMD_START 5 0 (2 ^ 32) World.start) =
      alloc_seq NET_DM_CMD_START 5 0 World.start := by
  have hs : World.start.seq < 2 ^ 32 := by decide
  obtain ⟨a1, a2⟩ := alloc_calls_seq NET_DM_CMD_START 5 0 (2 ^ 31 - 1) World.start rfl hs
  obtain ⟨b1, b2⟩ := alloc_calls_seq NET_DM_CMD_START 5 0 (2 ^ 31) World.start rfl hs
  obtain ⟨c1, c2⟩ := alloc_calls_seq NET_DM_CMD_START 5 0 (2 ^ 32) World.start rfl hs
  rw [alloc_seq_eq _ _ _ _ a2, alloc_seq_eq _ _ _ _ b2, alloc_seq_eq _ _ _ _ c2,
    alloc_seq_eq _ _ _ _ rfl, a1, b1, c1]
  have z : World.start.seq = 0 := rfl
  rw [z]
  refine ⟨?_, ?_, ?_⟩ <;> simp [toInt32]

theorem KeepsState.bind {α β : Type} {m : M α} {f : α → M β} (hm : KeepsState m)
    (hf : ∀ a, KeepsState (f a)) : KeepsState (m >>= f) := by
  intro w
  rw [bind_run]
  have h := hm w
  cases hr : m w with
  | ok a w1 =>
    rw [hr] at h
    simp only [Res.world] at h
    simp only
    rw [hf a w1, h]
  | fault e w1 =>
    rw [hr] at h
    exact h
  | timeout w1 =>
    rw [hr] at h
    exact h

theorem KeepsState.pure {α : Type} (a : α) : KeepsState (pure a : M α) := fun _ => rfl

theorem KeepsState.emit (e : Event) : KeepsState (emit e) := fun _ => rfl

theorem KeepsState.getW : KeepsState getW := fun _ => rfl

theorem KeepsState.fault {α : Type} (f : Fault) : KeepsState (fault f : M α) := fun _ => rfl

theorem KeepsState.deref (a : Addr) : KeepsState (deref a) := by
  intro w
  unfold Dropwatch.deref
  split
  · rfl
  · split
    · rfl
    · split <;> rfl

theorem KeepsState.put (a : Addr) (s : Slot) : KeepsState (modW fun w => w.put a s) := by
  intro w
  simp only [modW_run, Res.world, World.put]
  split <;> rfl

theorem KeepsState.store (a : Addr) (v : netlink_message) : KeepsState (store a v) :=
  KeepsState.bind (KeepsState.deref a) fun _ => KeepsState.put a _

theorem KeepsState.free_struct (a : Addr) : KeepsState (free_struct a) :=
  KeepsState.bind (KeepsState.deref a) fun _ =>
    KeepsState.bind (KeepsState.put a _) fun _ => KeepsState.emit _

theorem KeepsState.ite {α : Type} (c : Prop) [Decidable c] {m1 m2 : M α} (h1 : KeepsState m1)
    (h2 : KeepsState m2) : KeepsState (if c then m1 else m2) := by
  split
  · exact h1
  · exact h2

theorem KeepsState.free_netlink_msg (msg : Addr) : KeepsState (free_netlink_msg msg) := by
  unfold Dropwatch.free_netlink_msg
  repeat' first
    | exact KeepsState.pure _
    | exact KeepsState.emit _
    | exact KeepsState.deref _
    | exact KeepsState.store _ _
    | exact KeepsState.free_struct _
    | apply KeepsState.bind
    | apply KeepsState.ite
    | intro _

theorem KeepsState.alert_loop (alert : Frame) (todo i : Nat) :
    KeepsState (alert_loop alert todo i) := by
  induction todo generalizing i with
  | zero => exact KeepsState.pure _
  | succ n ih =>
    unfold Dropwatch.alert_loop
    dsimp only
    split
    · exact KeepsState.bind (KeepsState.fault _) fun _ => ih _
    · exact KeepsState.bind (KeepsState.emit _) fun _ => ih _

theorem KeepsState.handle_dm_alert_msg (msg : Addr) (err : Int) :
    KeepsState (handle_dm_alert_msg msg err) := by
  unfold Dropwatch.handle_dm_alert_msg
  repeat' first
    | exact KeepsState.pure _
    | exact KeepsState.emit _
    | exact KeepsState.getW
    | exact KeepsState.deref _
    | exact KeepsState.alert_loop _ _ _
    | exact KeepsState.free_netlink_msg _
    | apply KeepsState.bind
    | apply KeepsState.ite
    | intro _

theorem KeepsState.handle_dm_config_msg (msg : Addr) (err : Int) :
    KeepsState (handle_dm_config_msg msg err) := KeepsState.emit _

theorem handle_dm_start_msg_state (amsg msg : Addr) (err : Int) (w : World) :
    (handle_dm_start_msg amsg msg err w).world.state =
      if err ≠ 0 then STATE_FAILED
      else if w.state = STATE_ACTIVATING then STATE_RECEIVING else STATE_FAILED := by
  rw [handle_dm_start_msg_run]
  rw [(KeepsState.bind (KeepsState.free_netlink_msg msg) fun _ => KeepsState.pure ()) _]
  by_cases he : err = 0
  · by_cases hs : w.state = STATE_ACTIVATING
    · simp [he, hs]
    · simp [he, hs]
  · simp [he]

theorem handle_dm_stop_msg_state (amsg msg : Addr) (err : Int) (w : World) :
    (handle_dm_stop_msg amsg msg err w).world.state =
      if err = 0 then STATE_IDLE else w.state := by
  rw [handle_dm_stop_msg_run]
  rw [(KeepsState.bind (KeepsState.free_netlink_msg msg) fun _ => KeepsState.pure ()) _]

theorem sigint_handler_run (signum : Int) (w : World) :
    sigint_handler signum w =
      if w.state = STATE_RECEIVING ∨ w.state = STATE_RQST_DEACTIVATE then
        .ok () { w with state := STATE_RQST_DEACTIVATE }
      else
        .ok () { w with trace := w.trace ++ [.printf .got_sigint_while_not_receiving] } := by
  by_cases h : w.state = STATE_RECEIVING ∨ w.state = STATE_RQST_DEACTIVATE
  · simp [sigint_handler, bind_run, h]
  · simp [sigint_handler, bind_run, h]

theorem state_loop_body_terminal (fuel : Nat) (rx : Bool) (w : World)
    (hs : w.state = STATE_FAILED ∨ w.state = STATE_EXIT) :
    state_loop_body fuel rx w = .ok none w := by
  rcases hs with hs | hs <;> simp [state_loop_body, state_switch, bind_run, hs]

/-- C9 (amended): in the states FAILED and EXIT one iteration of
`enter_state_loop` returns from the loop at once, receiving nothing and
changing nothing; `sigint_handler` and the alert and config handlers leave
the state as it is; `handle_dm_start_msg` ends in FAILED for every result
code (so it keeps FAILED and turns EXIT into FAILED); `handle_dm_stop_msg`
keeps the state for every non-zero result code and sets IDLE for result
code 0. -/
theorem terminal_states_kept (w : World) (hs : w.state = STATE_FAILED ∨ w.state = STATE_EXIT) :
    (∀ fuel rx, state_loop_body fuel rx w = .ok none w) ∧
    (∀ signum, (sigint_handler signum w).world.state = w.state) ∧
    (∀ msg err, (handle_dm_alert_msg msg err w).world.state = w.state) ∧
    (∀ msg err, (handle_dm_config_msg msg err w).world.state = w.state) ∧
    (∀ amsg msg err, (handle_dm_start_msg amsg msg err w).world.state = STATE_FAILED) ∧
    (∀ amsg msg err, (handle_dm_stop_msg amsg msg err w).world.state =
      if err = 0 then STATE_IDLE else w.state) := by
  refine ⟨fun fuel rx => state_loop_body_terminal fuel rx w hs, ?_,
    fun msg err => KeepsState.handle_dm_alert_msg msg err w,
    fun msg err => KeepsState.handle_dm_config_msg msg err w, ?_,
    fun amsg msg err => handle_dm_stop_msg_state amsg msg err w⟩
  · intro signum
    rw [sigint_handler_run]
    rcases hs with hs | hs <;> simp [hs, Res.world]
  · intro amsg msg err
    rw [handle_dm_start_msg_state]
    rcases hs with hs | hs <;> simp [hs]

/-- C9 (counterexample): called in the state FAILED with result code 0,
`handle_dm_stop_msg` leaves the state IDLE; called in the state EXIT,
`handle_dm_start_msg` leaves the state FAILED. -/
theorem handle_dm_stop_msg_leaves_failed :
    World.failed_with_pending_stop.state = STATE_FAILED ∧
    (handle_dm_stop_msg 2 1 0 World.failed_with_pending_stop).world.state = STATE_IDLE ∧
    World.exit_with_pending_start.state = STATE_EXIT ∧
    (handle_dm_start_msg 2 1 0 World.exit_with_pending_start).world.state = STATE_FAILED := by
  refine ⟨rfl, rfl, rfl, rfl⟩

set_option maxHeartbeats 1600000 in
/-- C10 (amended): from the state IDLE with an empty registry, when the
operator enters `start`, `malloc` succeeds and the send returns a negative
code, `enter_state_loop` returns with the state FAILED and without having
received anything; the Message of the failed request is still registered: it
is live and is the head of the registry, with `handle_dm_start_msg` as its
callback. -/
theorem enter_state_loop_start_send_fails (w : World) (rest : List String) (rc : Int)
    (tx : List Int) (fuel : Nat)
    (hst : w.state = STATE_IDLE) (hhead : w.head = NULL) (hin : w.stdin = "start" :: rest)
    (htx : w.tx = rc :: tx) (hrc : rc < 0) (hoom : w.oom = []) :
    ∃ w', enter_state_loop (fuel + 3) w = .ok () w' ∧ w'.state = STATE_FAILED ∧
      w'.head = w.heap.length + 1 ∧
      w'.live w'.head =
        some { command w.nsf NET_DM_CMD_START (NLM_F_REQUEST ||| NLM_F_ACK) w.seq with
               ack_cb := .handle_dm_start_msg } ∧
      w'.rx = w.rx := by
  obtain ⟨heap, head, state, seq, nsf, armed, stdin, rx, tx0, oom, trace⟩ := w
  simp only at hst hhead hin htx hoom
  subst hst hhead hin htx hoom
  simp [enter_state_loop, state_loop, state_loop_body, state_switch, enter_command_line_mode,
    command_line_loop, enable_drop_monitor, bind_run, alloc_netlink_msg_run, set_ack_cb,
    send_netlink_message, deref, store, World.put, World.live, World.slot, hrc]

/-- C2 (witness): the registered command Message of `World.pending_one` has
count 1; `free_netlink_msg` returns 0 and releases it. -/
theorem free_netlink_msg_spec_witness :
    (World.pending_one .handle_dm_stop_msg STATE_DEACTIVATING (ack_frame 0 0)).live 1 =
        some { command 16 NET_DM_CMD_START 5 0 with ack_cb := .handle_dm_stop_msg } ∧
    ∃ w', free_netlink_msg 1
        (World.pending_one .handle_dm_stop_msg STATE_DEACTIVATING (ack_frame 0 0)) =
          .ok ((1 : Int) - 1) w' ∧
      w'.slot 1 = some ⟨{ command 16 NET_DM_CMD_START 5 0 with
                          ack_cb := .handle_dm_stop_msg, refcnt := (1 : Int) - 1 },
                        decide ((1 : Int) - 1 = 0)⟩ ∧
      w'.trace =
        (World.pending_one .handle_dm_stop_msg STATE_DEACTIVATING (ack_frame 0 0)).trace ++
          .call_free_netlink_msg 1 ::
            (if (1 : Int) - 1 = 0 then [if true then .nlmsg_free 1 else .free_buf 1, .free_struct 1]
             else []) :=
  ⟨rfl, free_netlink_msg_spec
    (World.pending_one .handle_dm_stop_msg STATE_DEACTIVATING (ack_frame 0 0)) 1
    { command 16 NET_DM_CMD_START 5 0 with ack_cb := .handle_dm_stop_msg } rfl⟩

/-- C6 (counterexample): a Message fresh from `alloc_netlink_msg` has count 1,
and after `set_ack_cb` has registered it the count is still 1, not 2. -/
theorem set_ack_cb_takes_no_reference :
    (World.one_built.live 1).map netlink_message.refcnt = some 1 ∧
    ((set_ack_cb 1 .handle_dm_start_msg World.one_built).world.live 1).map
        netlink_message.refcnt = some 1 ∧
    ((set_ack_cb 1 .handle_dm_start_msg World.one_built).world.live 1).map
        netlink_message.refcnt ≠ some (1 + 1) := by
  refine ⟨rfl, rfl, ?_⟩
  decide

/-- C6 (witness): registering the stop command at address 2 while the start
command at address 1 is the live head. -/
theorem set_ack_cb_keeps_refcnt_witness :
    World.one_pending_one_built.live 2 = some (command 16 NET_DM_CMD_STOP 5 1) ∧
    (World.one_pending_one_built.head = NULL ∨
      ∃ n, World.one_pending_one_built.live World.one_pending_one_built.head = some n) ∧
    ∃ w' m', set_ack_cb 2 .handle_dm_stop_msg World.one_pending_one_built = .ok () w' ∧
      w'.head = 2 ∧ w'.live 2 = some m' ∧ m'.ack_cb = .handle_dm_stop_msg ∧
      m'.refcnt = (command 16 NET_DM_CMD_STOP 5 1).refcnt ∧
      m'.seq = (command 16 NET_DM_CMD_STOP 5 1).seq ∧
      (World.one_pending_one_built.head ≠ NULL → m'.next = World.one_pending_one_built.head) :=
  ⟨rfl, Or.inr ⟨_, rfl⟩,
    set_ack_cb_keeps_refcnt World.one_pending_one_built 2 .handle_dm_stop_msg
      (command 16 NET_DM_CMD_STOP 5 1) rfl (Or.inr ⟨_, rfl⟩)⟩

/-- C7 (witness): the first call and the call three calls later, from the
start of the process. -/
theorem alloc_netlink_msg_seq_increases_witness :
    World.start.oom = [] ∧ World.start.seq + 2 + 1 < 2 ^ 31 ∧
    ∃ s1 s2, alloc_seq NET_DM_CMD_START 5 0 World.start = some s1 ∧
      alloc_seq NET_DM_CMD_START 5 0 (alloc_calls NET_DM_CMD_START 5 0 (2 + 1) World.start) =
        some s2 ∧ s1 < s2 :=
  ⟨rfl, by decide, alloc_netlink_msg_seq_increases NET_DM_CMD_START 5 0 World.start 2 rfl
    (by decide)⟩

/-- C9 (witness): the state FAILED with a stop command pending. -/
theorem terminal_states_kept_witness :
    (World.failed_with_pending_stop.state = STATE_FAILED ∨
      World.failed_with_pending_stop.state = STATE_EXIT) ∧
    (∀ fuel rx, state_loop_body fuel rx World.failed_with_pending_stop =
      .ok none World.failed_with_pending_stop) ∧
    (∀ signum, (sigint_handler signum World.failed_with_pending_stop).world.state =
      World.failed_with_pending_stop.state) ∧
    (∀ msg err, (handle_dm_alert_msg msg err World.failed_with_pending_stop).world.state =
      World.failed_with_pending_stop.state) ∧
    (∀ msg err, (handle_dm_config_msg msg err World.failed_with_pending_stop).world.state =
      World.failed_with_pending_stop.state) ∧
    (∀ amsg msg err,
      (handle_dm_start_msg amsg msg err World.failed_with_pending_stop).world.state =
        STATE_FAILED) ∧
    (∀ amsg msg err,
      (handle_dm_stop_msg amsg msg err World.failed_with_pending_stop).world.state =
        if err = 0 then STATE_IDLE else World.failed_with_pending_stop.state) :=
  ⟨Or.inl rfl, terminal_states_kept World.failed_with_pending_stop (Or.inl rfl)⟩

/-- C10 (counterexample): the operator types `start`, the send returns -1;
`enter_state_loop` returns with the state FAILED and the registry is not
empty: its head is the Message of the failed request, at address 1. -/
theorem enter_state_loop_leaves_failed_request_registered :
    World.start_then_send_fails.head = NULL ∧
    ∃ w', enter_state_loop 3 World.start_then_send_fails = .ok () w' ∧
      w'.state = STATE_FAILED ∧ w'.head = 1 ∧ w'.head ≠ NULL := by
  refine ⟨rfl, ?_⟩
  simp [World.start_then_send_fails, World.init, enter_state_loop, state_loop, state_loop_body,
    state_switch, enter_command_line_mode, command_line_loop, enable_drop_monitor, bind_run,
    alloc_netlink_msg_run, set_ack_cb, send_netlink_message, deref, store, World.put]

/-- C10 (witness): the run of the counterexample. -/
theorem enter_state_loop_start_send_fails_witness :
    World.start_then_send_fails.state = STATE_IDLE ∧ World.start_then_send_fails.head = NULL ∧
    World.start_then_send_fails.stdin = "start" :: [] ∧
    World.start_then_send_fails.tx = (-1) :: [] ∧ (-1 : Int) < 0 ∧
    World.start_then_send_fails.oom = [] ∧
    ∃ w', enter_state_loop (0 + 3) World.start_then_send_fails = .ok () w' ∧
      w'.state = STATE_FAILED ∧
      w'.head = World.start_then_send_fails.heap.length + 1 ∧
      w'.live w'.head =
        some { command World.start_then_send_fails.nsf NET_DM_CMD_START
                 (NLM_F_REQUEST ||| NLM_F_ACK) World.start_then_send_fails.seq with
               ack_cb := .handle_dm_start_msg } ∧
      w'.rx = World.start_then_send_fails.rx :=
  ⟨rfl, rfl, rfl, rfl, by decide, rfl,
    enter_state_loop_start_send_fails World.start_then_send_fails [] (-1) [] 0 rfl rfl rfl rfl
      (by decide) rfl⟩

/-! ## Handlers, operator input and the request arms -/

theorem free_netlink_msg_run (w : World) (a : Addr) (m : netlink_message)
    (h : w.live a = some m) :
    free_netlink_msg a w = .ok (m.refcnt - 1) (w.after_free a m) := by
  obtain ⟨ha, hlt, hg⟩ := heap_lt_of_live h
  by_cases hr : m.refcnt - 1 = 0 <;> cases hb : m.nlbuf <;>
  simp [World.after_free, free_netlink_msg, free_struct, bind_run, deref, store, World.put, ha, hg, hlt,
    hr, hb, List.getElem?_set]

@[simp] theorem after_free_state (w : World) (a : Addr) (m : netlink_message) :
    (w.after_free a m).state = w.state := by
  unfold World.after_free World.put
  split <;> split <;> rfl

@[simp] theorem after_free_head (w : World) (a : Addr) (m : netlink_message) :
    (w.after_free a m).head = w.head := by
  unfold World.after_free World.put
  split <;> split <;> rfl

theorem free_then_return (w : World) (a : Addr) (m : netlink_message)
    (h : w.live a = some m) :
    ∃ w', (free_netlink_msg a >>= fun _ => (pure () : M Unit)) w = .ok () w' ∧
      w'.state = w.state := by
  rw [bind_run, free_netlink_msg_run w a m h]
  exact ⟨_, rfl, after_free_state _ _ _⟩

theorem free_netlink_msg_of_heap (w w1 : World) (a : Addr) (m : netlink_message)
    (h : w.live a = some m) (hw : w1.heap = w.heap) :
    free_netlink_msg a w1 = .ok (m.refcnt - 1) (w1.after_free a m) := by
  apply free_netlink_msg_run
  rw [← h]
  simp [World.live, World.slot, hw]

theorem slot_put_other (w : World) (a b : Addr) (s : Slot) (hab : a ≠ b) :
    (w.put b s).slot a = w.slot a := by
  unfold World.put World.slot
  by_cases hb : b = NULL
  · simp [hb]
  · by_cases ha : a = NULL
    · simp [ha]
    · have hidx : b - 1 ≠ a - 1 := pred_ne_pred b a hb ha (fun e => hab e.symm)
      simp [hb, ha, List.getElem?_set, hidx]

theorem alert_loop_run (alert : Frame) (todo i : Nat) (w : World)
    (hb : i + todo ≤ alert.points.length) :
    alert_loop alert todo i w =
      .ok () { w with trace := w.trace ++ ((alert.points.drop i).take todo).map report_line } := by
  induction todo generalizing i w with
  | zero => simp [alert_loop]
  | succ n ih =>
    have hi : i < alert.points.length := by omega
    have hd : alert.points.drop i = alert.points[i] :: alert.points.drop (i + 1) :=
      List.drop_eq_getElem_cons hi
    have hget : alert.points[i]? = some alert.points[i] := List.getElem?_eq_getElem hi
    rw [alert_loop, hd]
    simp only [hget, bind_run, emit_run, ih (i + 1) _ (by omega), List.take_succ_cons,
      List.map_cons, report_line, List.append_assoc, List.singleton_append]
    rfl

/-- C12: called on a live command Message, `handle_dm_start_msg` returns, and
the state it leaves is FAILED if `err` is not 0, whatever the state was;
RECEIVING if `err` is 0 and the state was ACTIVATING; FAILED if `err` is 0
and the state was anything else. -/
theorem handle_dm_start_msg_spec (w : World) (amsg msg : Addr) (err : Int) (m : netlink_message)
    (h : w.live msg = some m) :
    ∃ w', handle_dm_start_msg amsg msg err w = .ok () w' ∧
      w'.state = (if err ≠ 0 then STATE_FAILED
                  else if w.state = STATE_ACTIVATING then STATE_RECEIVING else STATE_FAILED) := by
  rw [handle_dm_start_msg_run]
  by_cases he : err = 0
  · by_cases hs : w.state = STATE_ACTIVATING
    · simp only [he, hs, ne_eq, not_true_eq_false, if_false, if_true]
      exact free_then_return _ msg m h
    · simp only [he, hs, ne_eq, not_true_eq_false, if_false]
      exact free_then_return _ msg m h
  · simp only [he, ne_eq, not_false_eq_true, if_true]
    exact free_then_return _ msg m h

/-- C13: called on a live command Message, `handle_dm_stop_msg` returns, and
the state it leaves is IDLE if `err` is 0 and the state it found otherwise
(so a failed deactivation ack in DEACTIVATING leaves DEACTIVATING). -/
theorem handle_dm_stop_msg_spec (w : World) (amsg msg : Addr) (err : Int) (m : netlink_message)
    (h : w.live msg = some m) :
    ∃ w', handle_dm_stop_msg amsg msg err w = .ok () w' ∧
      w'.state = (if err = 0 then STATE_IDLE else w.state) := by
  rw [handle_dm_stop_msg_run]
  exact free_then_return _ msg m h

/-- C14: in every control state other than RECEIVING, `handle_dm_alert_msg` on
the Message wrapped around an alert frame (live, count 1, any number of
entries) returns having printed nothing: the only events are the call of
`free_netlink_msg` and the two frees it performs.  The state and the head of
the registry are unchanged, every other heap object is unchanged, and the
frame's Message is freed with count 0. -/
theorem handle_dm_alert_msg_discards (w : World) (msg : Addr) (err : Int) (m : netlink_message)
    (h : w.live msg = some m) (hr : m.refcnt = 1) (hs : w.state ≠ STATE_RECEIVING) :
    ∃ w', handle_dm_alert_msg msg err w = .ok () w' ∧
      w'.trace = w.trace ++ [.call_free_netlink_msg msg,
        if m.nlbuf then .nlmsg_free msg else .free_buf msg, .free_struct msg] ∧
      w'.state = w.state ∧ w'.head = w.head ∧ (∀ a, a ≠ msg → w'.slot a = w.slot a) ∧
      w'.slot msg = some ⟨{ m with refcnt := 0 }, true⟩ := by
  have hl := heap_lt_of_live h
  obtain ⟨ha, hlt, hg⟩ := hl
  refine ⟨w.after_free msg m, ?_, ?_, ?_, ?_, ?_, ?_⟩
  · simp [handle_dm_alert_msg, bind_run, deref_of_live h, hs, free_netlink_msg_run w msg m h]
  · simp [World.after_free, hr]
  · simp [World.after_free, hr, World.put, ha]
  · simp [World.after_free, hr, World.put, ha]
  · intro a hne
    have := slot_put_other w a msg ⟨{ m with refcnt := 0 }, true⟩ hne
    simpa [World.after_free, hr, World.slot] using this
  · have := slot_put_same ⟨{ m with refcnt := 0 }, true⟩ h
    simpa [World.after_free, hr, World.slot] using this

/-- C15: in the state RECEIVING, `handle_dm_alert_msg` on the Message wrapped
around an alert frame whose `entries` field counts its `n` points prints the
heading and then exactly `n` report lines, the i-th with the count and the
program counter of the i-th point in payload order, releases the Message and
leaves the state RECEIVING. -/
theorem handle_dm_alert_msg_reports (w : World) (msg : Addr) (err : Int) (m : netlink_message)
    (h : w.live msg = some m) (hr : m.refcnt = 1) (hs : w.state = STATE_RECEIVING)
    (hn : m.msg.entries = m.msg.points.length) :
    ∃ w', handle_dm_alert_msg msg err w = .ok () w' ∧
      w'.trace = w.trace ++ [.printf .got_drop_notifications] ++ m.msg.points.map report_line ++
        [.call_free_netlink_msg msg, if m.nlbuf then .nlmsg_free msg else .free_buf msg,
         .free_struct msg] ∧
      w'.state = STATE_RECEIVING := by
  refine ⟨World.after_free
    { w with trace := w.trace ++ [.printf .got_drop_notifications] ++
                        m.msg.points.map report_line } msg m, ?_, ?_, ?_⟩
  · have key := fun w1 hw => free_netlink_msg_of_heap w w1 msg m h hw
    simp [handle_dm_alert_msg, bind_run, deref_of_live h, hs, hn, alert_loop_run, key]
  · simp [World.after_free, hr]
  · simp [World.after_free, hr, World.put, hs]
    split <;> simp [hs]

theorem command_line_loop_run (pre : List String) (cmd : String) (post : List String) (w : World)
    (hpre : ∀ l ∈ pre, l ≠ "start" ∧ l ≠ "stop" ∧ l ≠ "exit")
    (hcmd : cmd = "start" ∨ cmd = "stop" ∨ cmd = "exit") :
    command_line_loop (pre ++ cmd :: post) w =
      .ok () { w with
               stdin := post,
               state := if cmd = "start" then STATE_RQST_ACTIVATE
                        else if cmd = "stop" then STATE_RQST_DEACTIVATE else STATE_EXIT,
               trace := w.trace ++ rejected_lines pre.length ++ [.prompt] } := by
  induction pre generalizing w with
  | nil =>
    rcases hcmd with hc | hc | hc <;> subst hc <;>
      simp [command_line_loop, bind_run, rejected_lines]
  | cons l pre ih =>
    obtain ⟨h1, h2, h3⟩ := hpre l (List.mem_cons_self _ _)
    have ih2 := fun w => ih w (fun x hx => hpre x (List.mem_cons_of_mem _ hx))
    simp [command_line_loop, bind_run, h1, h2, h3, ih2, rejected_lines]

/-- C16: when the operator's lines are `pre`, then `cmd`, then `post`, where
no line of `pre` is exactly `start`, `stop` or `exit` and `cmd` is one of
them, `enter_command_line_mode` returns having consumed `pre` and `cmd` and
nothing of `post`; the state is REQUEST_ACTIVATE for `start`,
REQUEST_DEACTIVATE for `stop` and EXIT for `exit`; each line of `pre` caused
a prompt and the release of the line and nothing else, and everything but
`stdin`, `state` and the trace is unchanged. -/
theorem enter_command_line_mode_spec (pre : List String) (cmd : String) (post : List String)
    (w : World) (hin : w.stdin = pre ++ cmd :: post)
    (hpre : ∀ l ∈ pre, l ≠ "start" ∧ l ≠ "stop" ∧ l ≠ "exit")
    (hcmd : cmd = "start" ∨ cmd = "stop" ∨ cmd = "exit") :
    enter_command_line_mode w =
      .ok () { w with
               stdin := post,
               state := if cmd = "start" then STATE_RQST_ACTIVATE
                        else if cmd = "stop" then STATE_RQST_DEACTIVATE else STATE_EXIT,
               trace := w.trace ++ rejected_lines pre.length ++ [.prompt] } := by
  unfold enter_command_line_mode
  rw [hin]
  exact command_line_loop_run pre cmd post w hpre hcmd

/-- C11 (the code departs from the claim): in each of the blocking states
ACTIVATING, RECEIVING and DEACTIVATING, when `nl_recv` fails with an `errno`
other than `EINTR`, the iteration of `enter_state_loop` prints the error and
ends with the loop going on (`should_rx` still set): the state is what it
was, not FAILED, and registry and heap are untouched. -/
theorem state_loop_body_receive_error (w : World) (errno : Nat) (rest : List NlRecv) (fuel : Nat)
    (hs : w.state = STATE_ACTIVATING ∨ w.state = STATE_RECEIVING ∨ w.state = STATE_DEACTIVATING)
    (hrx : w.rx = .fail errno :: rest) (hne : errno ≠ EINTR) :
    ∃ w', state_loop_body fuel true w = .ok (some true) w' ∧ w'.state = w.state ∧
      w'.state ≠ STATE_FAILED ∧ w'.rx = rest ∧ w'.head = w.head ∧ w'.heap = w.heap ∧
      w'.trace.reverse.take 1 = [.perror .receive_operation_failed] := by
  obtain ⟨heap, head, state, seq, nsf, armed, stdin, rx, tx, oom, trace⟩ := w
  simp only at hs hrx
  subst hrx
  rcases hs with hs | hs | hs <;> subst hs <;>
    simp [state_loop_body, state_switch, process_rx_message, recv_netlink_message, nl_recv_loop,
      bind_run, hne]

theorem state_loop_deactivating_spins (fuel : Nat) (w : World)
    (hs : w.state = STATE_DEACTIVATING) :
    state_loop fuel false w =
      .timeout { w with trace := w.trace ++
                   List.replicate fuel (.printf .waiting_for_deactivation_ack) } := by
  induction fuel generalizing w with
  | zero => simp [state_loop, blocked]
  | succ n ih =>
    obtain ⟨heap, head, state, seq, nsf, armed, stdin, rx, tx, oom, trace⟩ := w
    simp only at hs
    subst hs
    rw [state_loop]
    simp [state_loop_body, state_switch, bind_run, ih, List.replicate_succ]

/-- C17 (the code departs from the claim): from IDLE the operator types
`stop`, the send succeeds and the success ack is waiting on the socket.  The
IDLE arm has cleared `should_rx` and the REQUEST_DEACTIVATE arm does not set
it, so every iteration in DEACTIVATING only prints that it is waiting:
whatever the fuel, the loop is still running, no receive was ever attempted
and the ack is still unread. -/
theorem enter_state_loop_never_receives_after_stop (fuel : Nat) :
    ∃ w', enter_state_loop fuel World.stop_typed_ack_waiting = .timeout w' ∧
      w'.state = (if fuel = 0 then STATE_IDLE else if fuel = 1 then STATE_RQST_DEACTIVATE
                  else STATE_DEACTIVATING) ∧
      w'.rx = [.data (ack_frame 0 0)] ∧
      w'.trace.count (.printf .waiting_for_deactivation_ack) = fuel - 2 ∧
      w'.trace.count (.printf .trying_to_get_a_netlink_msg) = 0 := by
  rcases fuel with _ | _ | n <;>
  simp [World.stop_typed_ack_waiting, World.init, enter_state_loop, state_loop, state_loop_body,
    state_switch, enter_command_line_mode, command_line_loop, disable_drop_monitor, bind_run,
    alloc_netlink_msg_run, set_ack_cb, send_netlink_message, deref, store, World.put, blocked,
    state_loop_deactivating_spins, List.count_replicate]

set_option maxHeartbeats 1600000 in
/-- C18 (the code departs from the claim): a start command (address 1) and
then a stop command (address 2, the head) are registered.  Dispatching the ack
for the stop command invokes its callback, but `head` is only reset when the
entry has neither `next` nor `prev`: at the end `head` still is address 2,
whose struct has been freed, instead of the older entry at address 1 (whose
`prev` was cleared).  The run ends in the second release of C1. -/
theorem recv_netlink_message_leaves_head_dangling (st err : Int) (fuel : Nat) :
    ∃ w', recv_netlink_message (fuel + 1) (World.pending_two st (ack_frame 1 err)) =
        .fault .use_after_free w' ∧
      Event.call_ack_cb .handle_dm_stop_msg 3 2 err ∈ w'.trace ∧
      w'.head = 2 ∧ (w'.slot 2).map Slot.freed = some true ∧
      (w'.live 1).map netlink_message.prev = some NULL := by
  rw [pending_two_eq]
  by_cases he : err = 0
  · simp [recv_netlink_message, bind_run, nl_recv_loop, wrap_netlink_msg_run, deref, ack_frame,
      ack_loop, toUInt32, call_ack_cb_run, handle_dm_stop_msg_run, free_netlink_msg, store,
      World.put, free_struct, World.slot, World.live, he]
  · simp [recv_netlink_message, bind_run, nl_recv_loop, wrap_netlink_msg_run, deref, ack_frame,
      ack_loop, toUInt32, call_ack_cb_run, handle_dm_stop_msg_run, free_netlink_msg, store,
      World.put, free_struct, World.slot, World.live, he]

theorem bind_assoc_run {α β γ : Type} (m : M α) (f : α → M β) (g : β → M γ) (w : World) :
    ((m >>= f) >>= g) w = (m >>= fun a => f a >>= g) w := by
  simp only [bind_run]
  cases m w <;> rfl

/-- C20: `sigint_handler` always returns; the state becomes
REQUEST_DEACTIVATE if it was RECEIVING or REQUEST_DEACTIVATE and is unchanged
otherwise, when the only effect is the message printed; the head of the
registry and the heap are never touched. -/
theorem sigint_handler_spec (w : World) (signum : Int) :
    ∃ w', sigint_handler signum w = .ok () w' ∧
      w'.state = (if w.state = STATE_RECEIVING ∨ w.state = STATE_RQST_DEACTIVATE
                  then STATE_RQST_DEACTIVATE else w.state) ∧
      w'.head = w.head ∧ w'.heap = w.heap ∧
      w'.trace = w.trace ++
        (if w.state = STATE_RECEIVING ∨ w.state = STATE_RQST_DEACTIVATE then []
         else [.printf .got_sigint_while_not_receiving]) := by
  rw [sigint_handler_run]
  by_cases h : w.state = STATE_RECEIVING ∨ w.state = STATE_RQST_DEACTIVATE
  · simp [h]
  · simp [h]

/-- C11 (witness): ACTIVATING, `nl_recv` fails with `EBADF`. -/
theorem state_loop_body_receive_error_witness :
    (World.activating_receive_fails.state = STATE_ACTIVATING ∨
      World.activating_receive_fails.state = STATE_RECEIVING ∨
      World.activating_receive_fails.state = STATE_DEACTIVATING) ∧
    World.activating_receive_fails.rx = .fail 9 :: [] ∧ 9 ≠ EINTR ∧
    ∃ w', state_loop_body 1 true World.activating_receive_fails = .ok (some true) w' ∧
      w'.state = World.activating_receive_fails.state ∧ w'.state ≠ STATE_FAILED ∧ w'.rx = [] ∧
      w'.head = World.activating_receive_fails.head ∧
      w'.heap = World.activating_receive_fails.heap ∧
      w'.trace.reverse.take 1 = [.perror .receive_operation_failed] :=
  ⟨Or.inl rfl, rfl, by decide,
    state_loop_body_receive_error World.activating_receive_fails 9 [] 1 (Or.inl rfl) rfl
      (by decide)⟩

/-- C12 (witness): the success ack for the registered start command arrives
in ACTIVATING; the state becomes RECEIVING. -/
theorem handle_dm_start_msg_spec_witness :
    (World.pending_one .handle_dm_start_msg STATE_ACTIVATING (ack_frame 0 0)).live 1 =
      some (registered 16 NET_DM_CMD_START 0 .handle_dm_start_msg NULL) ∧
    ∃ w', handle_dm_start_msg 2 1 0
        (World.pending_one .handle_dm_start_msg STATE_ACTIVATING (ack_frame 0 0)) = .ok () w' ∧
      w'.state = STATE_RECEIVING :=
  ⟨rfl, handle_dm_start_msg_spec
    (World.pending_one .handle_dm_start_msg STATE_ACTIVATING (ack_frame 0 0)) 2 1 0
    (registered 16 NET_DM_CMD_START 0 .handle_dm_start_msg NULL) rfl⟩

/-- C13 (witness): a failed ack (result code -1) for the registered command
arrives in DEACTIVATING; the state stays DEACTIVATING. -/
theorem handle_dm_stop_msg_spec_witness :
    (World.pending_one .handle_dm_stop_msg STATE_DEACTIVATING (ack_frame 0 (-1))).live 1 =
      some (registered 16 NET_DM_CMD_START 0 .handle_dm_stop_msg NULL) ∧
    ∃ w', handle_dm_stop_msg 2 1 (-1)
        (World.pending_one .handle_dm_stop_msg STATE_DEACTIVATING (ack_frame 0 (-1))) =
          .ok () w' ∧
      w'.state = STATE_DEACTIVATING :=
  ⟨rfl, handle_dm_stop_msg_spec
    (World.pending_one .handle_dm_stop_msg STATE_DEACTIVATING (ack_frame 0 (-1))) 2 1 (-1)
    (registered 16 NET_DM_CMD_START 0 .handle_dm_stop_msg NULL) rfl⟩

/-- C14 (witness): an alert frame with two entries delivered in ACTIVATING. -/
theorem handle_dm_alert_msg_discards_witness :
    (World.alert_delivered STATE_ACTIVATING [(4096, 5), (8192, 1)]).live 1 =
      some (wrapped (cmd_frame 16 NET_DM_CMD_ALERT [(4096, 5), (8192, 1)])) ∧
    (wrapped (cmd_frame 16 NET_DM_CMD_ALERT [(4096, 5), (8192, 1)])).refcnt = 1 ∧
    (World.alert_delivered STATE_ACTIVATING [(4096, 5), (8192, 1)]).state ≠ STATE_RECEIVING ∧
    ∃ w', handle_dm_alert_msg 1 0 (World.alert_delivered STATE_ACTIVATING [(4096, 5), (8192, 1)]) =
        .ok () w' ∧
      w'.trace = (World.alert_delivered STATE_ACTIVATING [(4096, 5), (8192, 1)]).trace ++
        [.call_free_netlink_msg 1, .free_buf 1, .free_struct 1] ∧
      w'.state = (World.alert_delivered STATE_ACTIVATING [(4096, 5), (8192, 1)]).state ∧
      w'.head = (World.alert_delivered STATE_ACTIVATING [(4096, 5), (8192, 1)]).head ∧
      (∀ a, a ≠ 1 → w'.slot a =
        (World.alert_delivered STATE_ACTIVATING [(4096, 5), (8192, 1)]).slot a) ∧
      w'.slot 1 = some ⟨{ wrapped (cmd_frame 16 NET_DM_CMD_ALERT [(4096, 5), (8192, 1)]) with
                          refcnt := 0 }, true⟩ :=
  ⟨rfl, rfl, by decide,
    handle_dm_alert_msg_discards (World.alert_delivered STATE_ACTIVATING [(4096, 5), (8192, 1)])
      1 0 (wrapped (cmd_frame 16 NET_DM_CMD_ALERT [(4096, 5), (8192, 1)])) rfl rfl (by decide)⟩

/-- C15 (witness): the frame with the three entries (0x1000, 5), (0x2000, 1),
(0x3000, 9) delivered in RECEIVING gives the heading and exactly three report
lines, in that order. -/
theorem handle_dm_alert_msg_reports_witness :
    (World.alert_delivered STATE_RECEIVING [(0x1000, 5), (0x2000, 1), (0x3000, 9)]).live 1 =
      some (wrapped (cmd_frame 16 NET_DM_CMD_ALERT [(0x1000, 5), (0x2000, 1), (0x3000, 9)])) ∧
    (wrapped (cmd_frame 16 NET_DM_CMD_ALERT [(0x1000, 5), (0x2000, 1), (0x3000, 9)])).refcnt
      = 1 ∧
    (World.alert_delivered STATE_RECEIVING [(0x1000, 5), (0x2000, 1), (0x3000, 9)]).state =
      STATE_RECEIVING ∧
    (wrapped (cmd_frame 16 NET_DM_CMD_ALERT
        [(0x1000, 5), (0x2000, 1), (0x3000, 9)])).msg.entries = 3 ∧
    ∃ w', handle_dm_alert_msg 1 0
        (World.alert_delivered STATE_RECEIVING [(0x1000, 5), (0x2000, 1), (0x3000, 9)]) =
          .ok () w' ∧
      w'.trace =
        (World.alert_delivered STATE_RECEIVING [(0x1000, 5), (0x2000, 1), (0x3000, 9)]).trace ++
          [.printf .got_drop_notifications] ++
          [.printf_drops 5 0x1000, .printf_drops 1 0x2000, .printf_drops 9 0x3000] ++
          [.call_free_netlink_msg 1, .free_buf 1, .free_struct 1] ∧
      w'.state = STATE_RECEIVING :=
  ⟨rfl, rfl, rfl, rfl,
    handle_dm_alert_msg_reports
      (World.alert_delivered STATE_RECEIVING [(0x1000, 5), (0x2000, 1), (0x3000, 9)]) 1 0
      (wrapped (cmd_frame 16 NET_DM_CMD_ALERT [(0x1000, 5), (0x2000, 1), (0x3000, 9)]))
      rfl rfl rfl rfl⟩

/-- C16 (witness): five lines that are not commands (another case, a leading
blank, a prefix, an extension, the empty line), then `exit`; the later `start`
is not read. -/
theorem enter_command_line_mode_spec_witness :
    World.operator_fumbles.stdin =
      ["Start", " stop", "exi", "exit now", ""] ++ "exit" :: ["start"] ∧
    (∀ l ∈ ["Start", " stop", "exi", "exit now", ""],
      l ≠ "start" ∧ l ≠ "stop" ∧ l ≠ "exit") ∧
    ("exit" = "start" ∨ "exit" = "stop" ∨ "exit" = "exit") ∧
    enter_command_line_mode World.operator_fumbles =
      .ok () { World.operator_fumbles with
               stdin := ["start"],
               state := if "exit" = "start" then STATE_RQST_ACTIVATE
                        else if "exit" = "stop" then STATE_RQST_DEACTIVATE else STATE_EXIT,
               trace := World.operator_fumbles.trace ++
                 rejected_lines ["Start", " stop", "exi", "exit now", ""].length ++ [.prompt] } :=
  ⟨rfl, by simp, Or.inr (Or.inr rfl),
    enter_command_line_mode_spec ["Start", " stop", "exi", "exit now", ""] "exit" ["start"]
      World.operator_fumbles rfl (by simp) (Or.inr (Or.inr rfl))⟩

end Dropwatch
